import Mathlib

/-!
Verification of the eSpeak-NG wrapper (`Sources/EspeakWrapper/EspeakWrapper.c`).

Shallow embedding conventions:
* C strings are modelled as Lean `String`s; `strlen` is modelled by `String.length`
  (one model character per byte of the C string); a nullable `const char*` argument
  is `Option String`.
* The opaque native engine (`espeak_Initialize`, `espeak_SetVoiceByName`,
  `espeak_Synth`, `espeak_TextToPhonemes`) and the filesystem check `access`
  are modelled by an `Engine` record of pure functions: the behaviour of the
  collaborator during one wrapper call.
* The wrapper's global mutable state consists of the flag `is_initialized`
  and the static array `phoneme_buffer`; the initialization and cleanup entry
  points touch only the flag, so they are embedded as functions on `Bool`;
  the conversion entry point acts on the full `WrapperState`.
* Each entry point additionally returns the ordered list of lock/engine events
  it performed (`EngineCall`), so that claims about "no engine call", call
  order and lock acquisition are statable.
* A returned `const char*` value is modelled by `CStrPtr`: either the null
  pointer or a pointer to the static `phoneme_buffer`; dereferencing is
  relative to a `WrapperState`.
-/

/-- The opaque collaborators of the wrapper during one call: the filesystem
(`pathExists` models `access(p, F_OK) == 0`) and the native eSpeak engine
(`initResult` models the return of `espeak_Initialize`, positive on success;
`setVoiceOk` models `espeak_SetVoiceByName == EE_OK`; `synthOk` models
`espeak_Synth == EE_OK`; `textToPhonemes` models `espeak_TextToPhonemes`,
`none` being a NULL return). -/
structure Engine where
  pathExists : String → Bool
  initResult : Option String → Int
  setVoiceOk : String → Bool
  synthOk : String → Bool
  textToPhonemes : String → Option String

/-- One lock or native-engine event performed by a wrapper entry point. -/
inductive EngineCall where
  | lock
  | initCall (data_path : Option String)
  | setVoice (name : String)
  | synth (text : String)
  | textToPhon (text : String)
  | terminate
deriving DecidableEq, Repr

/-- `true` exactly on native-engine calls (everything except taking the mutex). -/
def EngineCall.isNative : EngineCall → Bool
  | EngineCall.lock => false
  | _ => true

/-- A `const char*` value returned to the caller: NULL, or a pointer into the
static `phoneme_buffer` array. -/
inductive CStrPtr where
  | null
  | phonemeBuffer
deriving DecidableEq, Repr

/-- The C struct `EspeakResult {int success; const char* phonemes;}`. -/
structure EspeakResult where
  success : Bool
  phonemes : CStrPtr
deriving DecidableEq, Repr

/-- The wrapper's mutable globals: `is_initialized` and the contents of the
static `phoneme_buffer` array (as a C string). -/
structure WrapperState where
  is_initialized : Bool
  phoneme_buffer : String
deriving DecidableEq, Repr

/-- Dereference a returned pointer in a given state of the globals. -/
def CStrPtr.deref (st : WrapperState) : CStrPtr → Option String
  | CStrPtr.null => none
  | CStrPtr.phonemeBuffer => some st.phoneme_buffer

/-- `sizeof(phoneme_buffer)`. -/
def buffer_capacity : Nat := 4096

/-- Embedding of `initialize_internal` (EspeakWrapper.c, lines 81-103); acts on
the `is_initialized` flag, the only global it reads or writes. Returns the new
flag, the C `int` result as a `Bool`, and the engine calls made. Mirrors the C:
already-initialized short-circuits; a provided path that fails the `access`
check returns 0 without calling `espeak_Initialize`; otherwise the engine is
called and success is `result > 0`. -/
def initialize_internal (env : Engine) (ini : Bool) (data_path : Option String) :
    Bool × Bool × List EngineCall :=
  if ini then (ini, true, [])
  else
    match data_path with
    | some p =>
      if ! env.pathExists p then (ini, false, [])
      else if 0 < env.initResult (some p) then (true, true, [EngineCall.initCall (some p)])
      else (ini, false, [EngineCall.initCall (some p)])
    | none =>
      if 0 < env.initResult none then (true, true, [EngineCall.initCall none])
      else (ini, false, [EngineCall.initCall none])

/-- Embedding of the `for` loop that tries each candidate path until
`initialize_internal` succeeds (used at lines 124-129 and 177-182). -/
def try_paths (env : Engine) (ini : Bool) : List String → Bool × Bool × List EngineCall
  | [] => (ini, false, [])
  | p :: rest =>
    let (ini1, ok1, tr1) := initialize_internal env ini (some p)
    if ok1 then (ini1, true, tr1)
    else
      let (ini2, ok2, tr2) := try_paths env ini1 rest
      (ini2, ok2, tr1 ++ tr2)

/-- The candidate path table of `espeak_wrapper_initialize_with_bundle`
(lines 116-121). -/
def default_paths : List String :=
  ["Sources/iOS-TTS/Espeak/espeak-ng-data", "/usr/local/share/espeak-ng-data",
   "./espeak-ng-data"]

/-- The fallback path table used by the lazy initialization inside
`espeak_wrapper_text_to_phonemes` (lines 170-174). -/
def conv_fallback_paths : List String :=
  ["Sources/iOS-TTS/Espeak/espeak-ng-data", "./espeak-ng-data"]

/-- Embedding of `espeak_wrapper_initialize_with_bundle` (lines 105-138):
lock; return 1 if already initialized; otherwise try each default path, then,
if none succeeded and still uninitialized, a final attempt with NULL. -/
def espeak_wrapper_initialize_with_bundle (env : Engine) (ini : Bool) :
    Bool × Bool × List EngineCall :=
  if ini then (ini, true, [EngineCall.lock])
  else
    let (ini1, ok1, tr1) := try_paths env ini default_paths
    if ok1 then (ini1, true, EngineCall.lock :: tr1)
    else if ! ini1 then
      let (ini2, ok2, tr2) := initialize_internal env ini1 none
      (ini2, ok2, EngineCall.lock :: (tr1 ++ tr2))
    else (ini1, false, EngineCall.lock :: tr1)

/-- Embedding of `espeak_wrapper_initialize_with_path` (lines 140-148):
lock, delegate to `initialize_internal`, unlock. -/
def espeak_wrapper_initialize_with_path (env : Engine) (ini : Bool)
    (data_path : Option String) : Bool × Bool × List EngineCall :=
  let (ini1, ok, tr) := initialize_internal env ini data_path
  (ini1, ok, EngineCall.lock :: tr)

/-- Embedding of the lazy-initialization block at the top of the conversion's
critical section (lines 167-189): if uninitialized, first `initialize_internal(NULL)`,
then the bundle fallback path list. -/
def ensure_init (env : Engine) (ini : Bool) : Bool × Bool × List EngineCall :=
  if ini then (ini, true, [])
  else
    let (ini1, ok1, tr1) := initialize_internal env ini none
    if ok1 then (ini1, true, tr1)
    else
      let (ini2, ok2, tr2) := try_paths env ini1 conv_fallback_paths
      (ini2, ok2, tr1 ++ tr2)

/-- Embedding of the tail of `espeak_wrapper_text_to_phonemes` after a voice
has been selected (lines 203-256): the priming `espeak_Synth` call, whose
status is read but has no effect; then `espeak_TextToPhonemes`; if the result
is non-NULL, non-empty and strictly shorter than `sizeof(phoneme_buffer)`,
it is copied into `phoneme_buffer` (in full: `strncpy` with the length bound
`sizeof - 1` never truncates a string this short) and the returned struct is
`{1, phoneme_buffer}`; otherwise the zero-initialized `{0, NULL}` is returned. -/
def conv_after_voice (env : Engine) (st : WrapperState) (t : String)
    (tr : List EngineCall) : WrapperState × EspeakResult × List EngineCall :=
  let _synth_status := env.synthOk t
  let tr1 := tr ++ [EngineCall.synth t]
  match env.textToPhonemes t with
  | some ph =>
    if 0 < ph.length then
      if ph.length < buffer_capacity then
        (⟨st.is_initialized, ph⟩, ⟨true, CStrPtr.phonemeBuffer⟩,
          tr1 ++ [EngineCall.textToPhon t])
      else (st, ⟨false, CStrPtr.null⟩, tr1 ++ [EngineCall.textToPhon t])
    else (st, ⟨false, CStrPtr.null⟩, tr1 ++ [EngineCall.textToPhon t])
  | none => (st, ⟨false, CStrPtr.null⟩, tr1 ++ [EngineCall.textToPhon t])

/-- Embedding of `espeak_wrapper_text_to_phonemes` (lines 150-257).
Pre-lock validation: NULL text or NULL language, empty text, or text longer
than 2048 returns the zero result with no lock and no engine call. Then, under
the lock: lazy initialization (`ensure_init`), voice selection for `language`
with a single retry on `"en"`, and `conv_after_voice`. -/
def espeak_wrapper_text_to_phonemes (env : Engine) (st : WrapperState)
    (text language : Option String) :
    WrapperState × EspeakResult × List EngineCall :=
  match text, language with
  | some t, some lang =>
    if t.length = 0 ∨ t.length > 2048 then (st, ⟨false, CStrPtr.null⟩, [])
    else
      let (ini1, initOk, trI) := ensure_init env st.is_initialized
      let st1 : WrapperState := ⟨ini1, st.phoneme_buffer⟩
      if ! initOk then (st1, ⟨false, CStrPtr.null⟩, EngineCall.lock :: trI)
      else if env.setVoiceOk lang then
        conv_after_voice env st1 t
          (EngineCall.lock :: (trI ++ [EngineCall.setVoice lang]))
      else if env.setVoiceOk "en" then
        conv_after_voice env st1 t
          (EngineCall.lock :: (trI ++ [EngineCall.setVoice lang, EngineCall.setVoice "en"]))
      else
        (st1, ⟨false, CStrPtr.null⟩,
          EngineCall.lock :: (trI ++ [EngineCall.setVoice lang, EngineCall.setVoice "en"]))
  | _, _ => (st, ⟨false, CStrPtr.null⟩, [])

/-- Embedding of `espeak_wrapper_cleanup` (lines 259-268): under the lock, if
initialized, call `espeak_Terminate` and clear the flag; otherwise nothing. -/
def espeak_wrapper_cleanup (ini : Bool) : Bool × List EngineCall :=
  if ini then (false, [EngineCall.lock, EngineCall.terminate])
  else (ini, [EngineCall.lock])

/-- Embedding of the `TARGET_OS_SIMULATOR` stub of
`espeak_wrapper_initialize_with_bundle` (lines 50-53): same signature,
constant failure, no state change, no engine call. -/
def sim_espeak_wrapper_initialize_with_bundle (_env : Engine) (ini : Bool) :
    Bool × Bool × List EngineCall := (ini, false, [])

/-- Embedding of the simulator stub of `espeak_wrapper_initialize_with_path`
(lines 55-59). -/
def sim_espeak_wrapper_initialize_with_path (_env : Engine) (ini : Bool)
    (_data_path : Option String) : Bool × Bool × List EngineCall := (ini, false, [])

/-- Embedding of the simulator stub of `espeak_wrapper_text_to_phonemes`
(lines 61-68): always the zero-initialized `{0, NULL}` result. -/
def sim_espeak_wrapper_text_to_phonemes (_env : Engine) (st : WrapperState)
    (_text _language : Option String) :
    WrapperState × EspeakResult × List EngineCall := (st, ⟨false, CStrPtr.null⟩, [])

/-- Embedding of the simulator stub of `espeak_wrapper_cleanup` (lines 70-72). -/
def sim_espeak_wrapper_cleanup (ini : Bool) : Bool × List EngineCall := (ini, [])

/-- A candidate path both passes the `access` check and makes
`espeak_Initialize` succeed. -/
def good_path (env : Engine) (p : String) : Bool :=
  env.pathExists p && decide (0 < env.initResult (some p))

/-- The candidate paths actually handed to `espeak_Initialize` by the
path-trying loop, in order: existing paths up to and including the first
successful one; nonexistent paths are skipped. -/
def tried_paths (env : Engine) : List String → List String
  | [] => []
  | p :: rest =>
    if ! env.pathExists p then tried_paths env rest
    else if 0 < env.initResult (some p) then [p]
    else p :: tried_paths env rest

/-- The sequence of voice names handed to `espeak_SetVoiceByName`, read off an
event trace. -/
def voice_calls : List EngineCall → List String
  | [] => []
  | EngineCall.setVoice n :: rest => n :: voice_calls rest
  | _ :: rest => voice_calls rest

/-- `true` exactly on `espeak_Initialize` events. -/
def is_init_call : EngineCall → Bool
  | EngineCall.initCall _ => true
  | _ => false

/-! Helper lemmas. -/

theorem try_paths_false_char (env : Engine) (ps : List String) :
    try_paths env false ps =
      (ps.any (good_path env), ps.any (good_path env),
        (tried_paths env ps).map fun p => EngineCall.initCall (some p)) := by
  induction ps with
  | nil => simp [try_paths, tried_paths]
  | cons p rest ih =>
    by_cases h1 : env.pathExists p
    · by_cases h2 : 0 < env.initResult (some p)
      · simp [try_paths, initialize_internal, tried_paths, good_path, h1, h2]
      · simp [try_paths, initialize_internal, tried_paths, good_path, h1, h2, ih]
    · simp [try_paths, initialize_internal, tried_paths, good_path, h1, ih]

theorem tried_paths_all_exist (env : Engine) (ps : List String) :
    (tried_paths env ps).all env.pathExists = true := by
  induction ps with
  | nil => simp [tried_paths]
  | cons p rest ih =>
    by_cases h1 : env.pathExists p
    · by_cases h2 : 0 < env.initResult (some p)
      · simp [tried_paths, h1, h2]
      · simp [tried_paths, h1, h2, ih]
    · simp [tried_paths, h1, ih]

theorem initialize_internal_flag (env : Engine) (ini : Bool) (dp : Option String) :
    (initialize_internal env ini dp).1 = (ini || (initialize_internal env ini dp).2.1) := by
  cases ini
  · cases dp <;> simp [initialize_internal] <;> split <;> simp_all <;> split <;> simp_all
  · simp [initialize_internal]

theorem initialize_internal_true (env : Engine) (dp : Option String) :
    initialize_internal env true dp = (true, true, []) := by
  simp [initialize_internal]

theorem with_bundle_true (env : Engine) :
    espeak_wrapper_initialize_with_bundle env true = (true, true, [EngineCall.lock]) := rfl

theorem initialize_internal_calls (env : Engine) (ini : Bool) (dp : Option String) :
    ((initialize_internal env ini dp).2.2).all is_init_call = true := by
  cases ini
  · cases dp <;> simp [initialize_internal] <;> split <;>
      simp_all [is_init_call] <;> split <;> simp_all [is_init_call]
  · simp [initialize_internal]

theorem try_paths_calls (env : Engine) (ini : Bool) (ps : List String) :
    ((try_paths env ini ps).2.2).all is_init_call = true := by
  induction ps generalizing ini with
  | nil => simp [try_paths]
  | cons p rest ih =>
    have h1 := initialize_internal_calls env ini (some p)
    have h2 := ih (initialize_internal env ini (some p)).1
    rcases hi : initialize_internal env ini (some p) with ⟨ini1, ok1, tr1⟩
    rw [hi] at h1 h2
    cases ok1 <;> simp_all [try_paths, hi, List.all_append]

theorem ensure_init_calls (env : Engine) (ini : Bool) :
    ((ensure_init env ini).2.2).all is_init_call = true := by
  cases ini
  · have h1 := initialize_internal_calls env false none
    have h2 := try_paths_calls env (initialize_internal env false none).1 conv_fallback_paths
    rcases hi : initialize_internal env false none with ⟨ini1, ok1, tr1⟩
    rw [hi] at h1 h2
    cases ok1 <;> simp_all [ensure_init, hi, List.all_append]
  · simp [ensure_init]

theorem mem_of_all_init {tr : List EngineCall} (h : tr.all is_init_call = true)
    {c : EngineCall} (hc : c ∈ tr) : is_init_call c = true := by
  exact (List.all_eq_true.mp h) c hc

theorem voice_calls_of_all_init {tr : List EngineCall} (h : tr.all is_init_call = true) :
    voice_calls tr = [] := by
  induction tr with
  | nil => simp [voice_calls]
  | cons c rest ih =>
    simp only [List.all_cons, Bool.and_eq_true] at h
    have hr := ih h.2
    cases c <;> simp_all [voice_calls, is_init_call]

theorem with_bundle_flag (env : Engine) (ini : Bool) :
    (espeak_wrapper_initialize_with_bundle env ini).1 =
      (espeak_wrapper_initialize_with_bundle env ini).2.1 := by
  cases ini
  · simp only [espeak_wrapper_initialize_with_bundle, try_paths_false_char]
    by_cases hg : default_paths.any (good_path env) = true
    · simp [hg]
    · simp only [Bool.not_eq_true] at hg
      have hfl := initialize_internal_flag env false none
      simp [hg]
      simp at hfl
      exact hfl
  · simp [espeak_wrapper_initialize_with_bundle]

theorem conv_after_voice_trace (env : Engine) (st : WrapperState) (t : String)
    (tr : List EngineCall) :
    (conv_after_voice env st t tr).2.2 =
      tr ++ [EngineCall.synth t, EngineCall.textToPhon t] := by
  cases hp : env.textToPhonemes t with
  | none => simp [conv_after_voice, hp]
  | some ph =>
    by_cases h1 : 0 < ph.length
    · by_cases h2 : ph.length < buffer_capacity
      · simp [conv_after_voice, hp, h1, h2]
      · simp [conv_after_voice, hp, h1, h2]
    · simp [conv_after_voice, hp, h1]

theorem voice_calls_append (l1 l2 : List EngineCall) :
    voice_calls (l1 ++ l2) = voice_calls l1 ++ voice_calls l2 := by
  induction l1 with
  | nil => simp [voice_calls]
  | cons c rest ih => cases c <;> simp [voice_calls, ih]

theorem conv_after_voice_success (env : Engine) (st : WrapperState) (t : String)
    (tr : List EngineCall)
    (h : (conv_after_voice env st t tr).2.1.success = true) :
    ∃ ph, env.textToPhonemes t = some ph ∧ 0 < ph.length ∧ ph.length < buffer_capacity ∧
      (conv_after_voice env st t tr).2.1 = EspeakResult.mk true CStrPtr.phonemeBuffer ∧
      (conv_after_voice env st t tr).1 = WrapperState.mk st.is_initialized ph := by
  cases hp : env.textToPhonemes t with
  | none => simp [conv_after_voice, hp] at h
  | some ph =>
    by_cases h1 : 0 < ph.length
    · by_cases h2 : ph.length < buffer_capacity
      · exact ⟨ph, rfl, h1, h2, by simp [conv_after_voice, hp, h1, h2],
          by simp [conv_after_voice, hp, h1, h2]⟩
      · simp [conv_after_voice, hp, h1, h2] at h
    · simp [conv_after_voice, hp, h1] at h

theorem conv_success_char (env : Engine) (st : WrapperState) (text lang : Option String)
    (h : (espeak_wrapper_text_to_phonemes env st text lang).2.1.success = true) :
    ∃ t ph, text = some t ∧ env.textToPhonemes t = some ph ∧ 0 < ph.length ∧
      ph.length < buffer_capacity ∧
      (espeak_wrapper_text_to_phonemes env st text lang).2.1 =
        EspeakResult.mk true CStrPtr.phonemeBuffer ∧
      (espeak_wrapper_text_to_phonemes env st text lang).1.phoneme_buffer = ph := by
  cases text with
  | none => simp [espeak_wrapper_text_to_phonemes] at h
  | some t =>
    cases lang with
    | none => simp [espeak_wrapper_text_to_phonemes] at h
    | some lang =>
      by_cases hv : t.length = 0 ∨ t.length > 2048
      · simp [espeak_wrapper_text_to_phonemes, hv] at h
      · rcases he : ensure_init env st.is_initialized with ⟨ini1, initOk, trI⟩
        cases initOk
        · simp [espeak_wrapper_text_to_phonemes, hv, he] at h
        · by_cases hvo : env.setVoiceOk lang
          · have hred : espeak_wrapper_text_to_phonemes env st (some t) (some lang) =
                conv_after_voice env ⟨ini1, st.phoneme_buffer⟩ t
                  (EngineCall.lock :: (trI ++ [EngineCall.setVoice lang])) := by
              simp [espeak_wrapper_text_to_phonemes, hv, he, hvo]
            rw [hred] at h ⊢
            obtain ⟨ph, hp, h1, h2, hres, hstate⟩ := conv_after_voice_success env _ t _ h
            exact ⟨t, ph, rfl, hp, h1, h2, hres, by rw [hstate]⟩
          · by_cases hvo2 : env.setVoiceOk "en"
            · have hred : espeak_wrapper_text_to_phonemes env st (some t) (some lang) =
                  conv_after_voice env ⟨ini1, st.phoneme_buffer⟩ t
                    (EngineCall.lock ::
                      (trI ++ [EngineCall.setVoice lang, EngineCall.setVoice "en"])) := by
                simp [espeak_wrapper_text_to_phonemes, hv, he, hvo, hvo2]
              rw [hred] at h ⊢
              obtain ⟨ph, hp, h1, h2, hres, hstate⟩ := conv_after_voice_success env _ t _ h
              exact ⟨t, ph, rfl, hp, h1, h2, hres, by rw [hstate]⟩
            · simp [espeak_wrapper_text_to_phonemes, hv, he, hvo, hvo2] at h

theorem conv_trace_head (env : Engine) (st : WrapperState) (t lang : String)
    (hv : ¬(t.length = 0 ∨ t.length > 2048)) :
    (espeak_wrapper_text_to_phonemes env st (some t) (some lang)).2.2.take 1 =
      [EngineCall.lock] := by
  rcases he : ensure_init env st.is_initialized with ⟨ini1, initOk, trI⟩
  cases initOk
  · simp [espeak_wrapper_text_to_phonemes, hv, he]
  · by_cases hvo : env.setVoiceOk lang
    · simp [espeak_wrapper_text_to_phonemes, hv, he, hvo, conv_after_voice_trace]
    · by_cases hvo2 : env.setVoiceOk "en"
      · simp [espeak_wrapper_text_to_phonemes, hv, he, hvo, hvo2, conv_after_voice_trace]
      · simp [espeak_wrapper_text_to_phonemes, hv, he, hvo, hvo2]

theorem conv_after_voice_char (env : Engine) (st : WrapperState) (t : String)
    (tr : List EngineCall) (ph : String) (hp : env.textToPhonemes t = some ph) :
    (conv_after_voice env st t tr).2.1 =
      (if 0 < ph.length ∧ ph.length < buffer_capacity then
        EspeakResult.mk true CStrPtr.phonemeBuffer else EspeakResult.mk false CStrPtr.null) ∧
    (conv_after_voice env st t tr).1 =
      (if 0 < ph.length ∧ ph.length < buffer_capacity then
        WrapperState.mk st.is_initialized ph else st) := by
  by_cases h1 : 0 < ph.length
  · by_cases h2 : ph.length < buffer_capacity
    · simp [conv_after_voice, hp, h1, h2]
    · simp [conv_after_voice, hp, h1, h2]
  · simp [conv_after_voice, hp, h1]

/-! Concrete test environments used in counterexamples and witnesses. -/

/-- An environment in which every path exists, every engine call succeeds, and
the phoneme output for text `t` is `"P" ++ t`. -/
def env_ok : Engine :=
  { pathExists := fun _ => true
    initResult := fun _ => 1
    setVoiceOk := fun _ => true
    synthOk := fun _ => true
    textToPhonemes := fun t => some ("P" ++ t) }

/-- An environment in which no path exists and every engine call fails. -/
def env_all_fail : Engine :=
  { pathExists := fun _ => false
    initResult := fun _ => 0
    setVoiceOk := fun _ => false
    synthOk := fun _ => false
    textToPhonemes := fun _ => none }

/-- An environment in which no voice at all can be selected. -/
def env_no_voice : Engine :=
  { pathExists := fun _ => false
    initResult := fun _ => 1
    setVoiceOk := fun _ => false
    synthOk := fun _ => true
    textToPhonemes := fun t => some ("P" ++ t) }

/-- `env_ok` with a failing priming-synthesis call. -/
def env_synth_fail : Engine := { env_ok with synthOk := fun _ => false }

/-- A phoneme string exactly as long as the shared buffer, hence not copyable. -/
def oversized_ph : String := String.mk (List.replicate buffer_capacity 'a')

/-- An environment whose phoneme output exactly fills the 4096-byte buffer. -/
def env_oversized : Engine :=
  { pathExists := fun _ => true
    initResult := fun _ => 1
    setVoiceOk := fun _ => true
    synthOk := fun _ => true
    textToPhonemes := fun _ => some oversized_ph }

/-! Claims. -/

/-- C1, counterexample: the returned phoneme string is NOT an independent copy
owned by the caller. With `env_ok`, two sequential successful conversions with
inputs "a" and "b" return the same pointer (the shared static `phoneme_buffer`),
and after the second call the first call's returned string has changed from
"Pa" to "Pb". -/
theorem claimC1_counterexample :
    (espeak_wrapper_text_to_phonemes env_ok ⟨true, ""⟩ (some "a") (some "en")).2.1.success
      = true ∧
    (espeak_wrapper_text_to_phonemes env_ok
      (espeak_wrapper_text_to_phonemes env_ok ⟨true, ""⟩ (some "a") (some "en")).1
      (some "b") (some "en")).2.1.success = true ∧
    (espeak_wrapper_text_to_phonemes env_ok ⟨true, ""⟩ (some "a") (some "en")).2.1.phonemes =
      (espeak_wrapper_text_to_phonemes env_ok
        (espeak_wrapper_text_to_phonemes env_ok ⟨true, ""⟩ (some "a") (some "en")).1
        (some "b") (some "en")).2.1.phonemes ∧
    CStrPtr.deref (espeak_wrapper_text_to_phonemes env_ok ⟨true, ""⟩ (some "a") (some "en")).1
      (espeak_wrapper_text_to_phonemes env_ok ⟨true, ""⟩ (some "a") (some "en")).2.1.phonemes
      = some "Pa" ∧
    CStrPtr.deref (espeak_wrapper_text_to_phonemes env_ok
        (espeak_wrapper_text_to_phonemes env_ok ⟨true, ""⟩ (some "a") (some "en")).1
        (some "b") (some "en")).1
      (espeak_wrapper_text_to_phonemes env_ok ⟨true, ""⟩ (some "a") (some "en")).2.1.phonemes
      = some "Pb" ∧
    ("Pa" : String) ≠ "Pb" := by
  decide

/-- C1, amended: every successful conversion returns a pointer that aliases the
shared static `phoneme_buffer`, into which the engine's transient output was
copied while the lock was held; dereferenced immediately it yields that copy,
but it remains valid only until the next conversion overwrites the buffer. -/
theorem claimC1_amended (env : Engine) (st : WrapperState) (t lang : String)
    (h : (espeak_wrapper_text_to_phonemes env st (some t) (some lang)).2.1.success = true) :
    (espeak_wrapper_text_to_phonemes env st (some t) (some lang)).2.1.phonemes =
      CStrPtr.phonemeBuffer ∧
    env.textToPhonemes t =
      some (espeak_wrapper_text_to_phonemes env st (some t) (some lang)).1.phoneme_buffer ∧
    CStrPtr.deref (espeak_wrapper_text_to_phonemes env st (some t) (some lang)).1
        (espeak_wrapper_text_to_phonemes env st (some t) (some lang)).2.1.phonemes =
      some (espeak_wrapper_text_to_phonemes env st (some t) (some lang)).1.phoneme_buffer := by
  obtain ⟨t2, ph, ht, hp, h1, h2, hres, hbuf⟩ := conv_success_char env st (some t) (some lang) h
  injection ht with ht2
  subst ht2
  refine ⟨by rw [hres], by rw [hbuf]; exact hp, ?_⟩
  rw [hres]
  simp [CStrPtr.deref]

theorem claimC1_amended_witness :
    (espeak_wrapper_text_to_phonemes env_ok ⟨true, ""⟩ (some "a") (some "en")).2.1.success
      = true ∧
    (espeak_wrapper_text_to_phonemes env_ok ⟨true, ""⟩ (some "a") (some "en")).2.1.phonemes =
      CStrPtr.phonemeBuffer ∧
    env_ok.textToPhonemes "a" =
      some (espeak_wrapper_text_to_phonemes env_ok ⟨true, ""⟩
        (some "a") (some "en")).1.phoneme_buffer :=
  ⟨by decide,
    (claimC1_amended env_ok ⟨true, ""⟩ "a" "en" (by decide)).1,
    (claimC1_amended env_ok ⟨true, ""⟩ "a" "en" (by decide)).2.1⟩

/-- C2, counterexample: a request with valid text and the empty (non-null)
language is NOT rejected before the lock. With `env_ok` on an initialized
engine, `convert_text_to_phonemes("hi", "")` acquires the lock, calls voice
selection with the empty string, and even succeeds — contradicting the claimed
pre-lock `{success:false}` rejection. -/
theorem claimC2_counterexample :
    (espeak_wrapper_text_to_phonemes env_ok ⟨true, ""⟩ (some "hi") (some "")).2.1.success
      = true ∧
    EngineCall.lock ∈
      (espeak_wrapper_text_to_phonemes env_ok ⟨true, ""⟩ (some "hi") (some "")).2.2 ∧
    EngineCall.setVoice "" ∈
      (espeak_wrapper_text_to_phonemes env_ok ⟨true, ""⟩ (some "hi") (some "")).2.2 := by
  decide

/-- C2, amended: there is no empty-language validation. For every non-null text
of length in (0, 2048] and language equal to the empty string, the request
passes the pre-lock checks (only null pointers and text length are validated),
the lock is acquired, and — when initialization holds — voice selection is
attempted with the empty string, with the usual single "en" fallback. -/
theorem claimC2_amended (env : Engine) (st : WrapperState) (t : String)
    (h1 : 0 < t.length) (h2 : t.length ≤ 2048) :
    (espeak_wrapper_text_to_phonemes env st (some t) (some "")).2.2.take 1 =
      [EngineCall.lock] ∧
    ((ensure_init env st.is_initialized).2.1 = true →
      voice_calls (espeak_wrapper_text_to_phonemes env st (some t) (some "")).2.2 =
        (if env.setVoiceOk "" then [""] else ["", "en"])) := by
  have hv : ¬(t.length = 0 ∨ t.length > 2048) := by omega
  refine ⟨conv_trace_head env st t "" hv, fun hinit => ?_⟩
  have hall : (ensure_init env st.is_initialized).2.2.all is_init_call = true :=
    ensure_init_calls env st.is_initialized
  rcases he : ensure_init env st.is_initialized with ⟨ini1, initOk, trI⟩
  rw [he] at hinit hall
  simp only at hinit hall
  subst hinit
  have hvc : voice_calls trI = [] := voice_calls_of_all_init hall
  by_cases hvo : env.setVoiceOk ""
  · simp [espeak_wrapper_text_to_phonemes, hv, he, hvo, conv_after_voice_trace,
      voice_calls_append, voice_calls, hvc]
  · by_cases hvo2 : env.setVoiceOk "en"
    · simp [espeak_wrapper_text_to_phonemes, hv, he, hvo, hvo2, conv_after_voice_trace,
        voice_calls_append, voice_calls, hvc]
    · simp [espeak_wrapper_text_to_phonemes, hv, he, hvo, hvo2,
        voice_calls_append, voice_calls, hvc]

theorem claimC2_amended_witness :
    (0 < ("hi" : String).length) ∧ (("hi" : String).length ≤ 2048) ∧
    (espeak_wrapper_text_to_phonemes env_ok ⟨true, ""⟩ (some "hi") (some "")).2.2.take 1 =
      [EngineCall.lock] ∧
    voice_calls (espeak_wrapper_text_to_phonemes env_ok ⟨true, ""⟩
      (some "hi") (some "")).2.2 = [""] := by
  have h := claimC2_amended env_ok ⟨true, ""⟩ "hi" (by decide) (by decide)
  refine ⟨by decide, by decide, h.1, ?_⟩
  rw [h.2 (by decide)]
  decide

/-- C3: `convert_text_to_phonemes` returns `{success:false}` for null text,
null language, empty text, or text longer than 2048 — with an unchanged state
and an empty event trace (no lock, no initialization attempt, no engine call);
and every non-null text of length 1..2048 with a non-null language passes this
validation (the first event of the call is taking the lock). -/
theorem claimC3 (env : Engine) (st : WrapperState) (text language : Option String) :
    ((text = none ∨ language = none ∨
        (∀ t, text = some t → t.length = 0 ∨ t.length > 2048)) →
      espeak_wrapper_text_to_phonemes env st text language =
        (st, EspeakResult.mk false CStrPtr.null, [])) ∧
    (∀ t l, text = some t → language = some l → 0 < t.length → t.length ≤ 2048 →
      (espeak_wrapper_text_to_phonemes env st text language).2.2.take 1 =
        [EngineCall.lock]) := by
  constructor
  · intro hbad
    cases text with
    | none => rfl
    | some t =>
      cases language with
      | none => rfl
      | some l =>
        rcases hbad with h | h | h
        · exact absurd h (by simp)
        · exact absurd h (by simp)
        · have hlen := h t rfl
          simp [espeak_wrapper_text_to_phonemes, hlen]
  · intro t l ht hl h1 h2
    subst ht
    subst hl
    exact conv_trace_head env st t l (by omega)

theorem claimC3_witness :
    espeak_wrapper_text_to_phonemes env_ok ⟨false, ""⟩ (some "") (some "en") =
      (⟨false, ""⟩, EspeakResult.mk false CStrPtr.null, []) ∧
    (espeak_wrapper_text_to_phonemes env_ok ⟨false, ""⟩ (some "hi") (some "en")).2.2.take 1 =
      [EngineCall.lock] :=
  ⟨(claimC3 env_ok ⟨false, ""⟩ (some "") (some "en")).1
      (Or.inr (Or.inr (fun t ht => by
        injection ht with ht2
        subst ht2
        exact Or.inl rfl))),
    (claimC3 env_ok ⟨false, ""⟩ (some "hi") (some "en")).2 "hi" "en" rfl rfl
      (by decide) (by decide)⟩

/-- C4: once the engine has produced a phoneme string `ph` for the input, the
conversion succeeds with a copy of `ph` in the shared buffer exactly when
`0 < |ph| < 4096`; a string at or beyond the 4096-byte capacity (or an empty
one) yields `{success:false}` with a NULL payload and an untouched buffer —
never a truncated string with `success:true`. -/
theorem claimC4 (env : Engine) (st : WrapperState) (t lang ph : String)
    (hlen : 0 < t.length ∧ t.length ≤ 2048)
    (hinit : (ensure_init env st.is_initialized).2.1 = true)
    (hvoice : (env.setVoiceOk lang || env.setVoiceOk "en") = true)
    (hp : env.textToPhonemes t = some ph) :
    (espeak_wrapper_text_to_phonemes env st (some t) (some lang)).2.1 =
      (if 0 < ph.length ∧ ph.length < buffer_capacity then
        EspeakResult.mk true CStrPtr.phonemeBuffer else EspeakResult.mk false CStrPtr.null) ∧
    (espeak_wrapper_text_to_phonemes env st (some t) (some lang)).1.phoneme_buffer =
      (if 0 < ph.length ∧ ph.length < buffer_capacity then ph else st.phoneme_buffer) := by
  have hv : ¬(t.length = 0 ∨ t.length > 2048) := by omega
  rcases he : ensure_init env st.is_initialized with ⟨ini1, initOk, trI⟩
  rw [he] at hinit
  simp only at hinit
  subst hinit
  by_cases hvo : env.setVoiceOk lang
  · have hred : espeak_wrapper_text_to_phonemes env st (some t) (some lang) =
        conv_after_voice env ⟨ini1, st.phoneme_buffer⟩ t
          (EngineCall.lock :: (trI ++ [EngineCall.setVoice lang])) := by
      simp [espeak_wrapper_text_to_phonemes, hv, he, hvo]
    rw [hred]
    have hc := conv_after_voice_char env ⟨ini1, st.phoneme_buffer⟩ t
      (EngineCall.lock :: (trI ++ [EngineCall.setVoice lang])) ph hp
    exact ⟨hc.1, by rw [hc.2]; by_cases hx : 0 < ph.length ∧ ph.length < buffer_capacity <;>
      simp [hx]⟩
  · have hvo2 : env.setVoiceOk "en" = true := by
      cases h2 : env.setVoiceOk "en" <;> simp_all
    have hred : espeak_wrapper_text_to_phonemes env st (some t) (some lang) =
        conv_after_voice env ⟨ini1, st.phoneme_buffer⟩ t
          (EngineCall.lock ::
            (trI ++ [EngineCall.setVoice lang, EngineCall.setVoice "en"])) := by
      simp [espeak_wrapper_text_to_phonemes, hv, he, hvo, hvo2]
    rw [hred]
    have hc := conv_after_voice_char env ⟨ini1, st.phoneme_buffer⟩ t
      (EngineCall.lock :: (trI ++ [EngineCall.setVoice lang, EngineCall.setVoice "en"])) ph hp
    exact ⟨hc.1, by rw [hc.2]; by_cases hx : 0 < ph.length ∧ ph.length < buffer_capacity <;>
      simp [hx]⟩

theorem claimC4_witness :
    (0 < ("hi" : String).length ∧ ("hi" : String).length ≤ 2048) ∧
    (ensure_init env_oversized true).2.1 = true ∧
    (env_oversized.setVoiceOk "en" || env_oversized.setVoiceOk "en") = true ∧
    env_oversized.textToPhonemes "hi" = some oversized_ph ∧
    ¬ oversized_ph.length < buffer_capacity ∧
    (espeak_wrapper_text_to_phonemes env_oversized ⟨true, "X"⟩ (some "hi") (some "en")).2.1 =
      EspeakResult.mk false CStrPtr.null ∧
    (espeak_wrapper_text_to_phonemes env_oversized ⟨true, "X"⟩
      (some "hi") (some "en")).1.phoneme_buffer = "X" := by
  have hlenph : oversized_ph.length = buffer_capacity := by
    simp [oversized_ph, String.length]
  have hc : ¬(0 < oversized_ph.length ∧ oversized_ph.length < buffer_capacity) := by
    rw [hlenph]
    simp
  have h := claimC4 env_oversized ⟨true, "X"⟩ "hi" "en" oversized_ph
    (by decide) rfl rfl rfl
  refine ⟨by decide, rfl, rfl, rfl, by rw [hlenph]; simp, ?_, ?_⟩
  · rw [h.1, if_neg hc]
  · rw [h.2, if_neg hc]

/-- C5: with the engine uninitialized, `espeak_wrapper_initialize_with_bundle`
tries its candidate paths in order: the engine initializer receives exactly the
existing candidates up to and including the first successful one (`tried_paths`),
so nonexistent paths are never passed to it and later candidates are not tried
after a success; the final NULL-path attempt happens exactly when no explicit
candidate is good; the call returns true iff some explicit candidate succeeded
or the NULL attempt did (so false only when the final attempt also failed), and
the resulting initialized flag equals that returned value. -/
theorem claimC5 (env : Engine) :
    (espeak_wrapper_initialize_with_bundle env false).2.2 =
      EngineCall.lock ::
        ((tried_paths env default_paths).map (fun p => EngineCall.initCall (some p)) ++
          (if default_paths.any (good_path env) then [] else [EngineCall.initCall none])) ∧
    (tried_paths env default_paths).all env.pathExists = true ∧
    (espeak_wrapper_initialize_with_bundle env false).2.1 =
      (default_paths.any (good_path env) || decide (0 < env.initResult none)) ∧
    (espeak_wrapper_initialize_with_bundle env false).1 =
      (espeak_wrapper_initialize_with_bundle env false).2.1 := by
  refine ⟨?_, tried_paths_all_exist env default_paths, ?_, with_bundle_flag env false⟩
  · by_cases hg : default_paths.any (good_path env) = true
    · simp [espeak_wrapper_initialize_with_bundle, try_paths_false_char, hg]
    · simp only [Bool.not_eq_true] at hg
      by_cases hn : 0 < env.initResult none
      · simp [espeak_wrapper_initialize_with_bundle, try_paths_false_char, hg,
          initialize_internal, hn]
      · simp [espeak_wrapper_initialize_with_bundle, try_paths_false_char, hg,
          initialize_internal, hn]
  · by_cases hg : default_paths.any (good_path env) = true
    · simp [espeak_wrapper_initialize_with_bundle, try_paths_false_char, hg]
    · simp only [Bool.not_eq_true] at hg
      by_cases hn : 0 < env.initResult none
      · simp [espeak_wrapper_initialize_with_bundle, try_paths_false_char, hg,
          initialize_internal, hn]
      · simp [espeak_wrapper_initialize_with_bundle, try_paths_false_char, hg,
          initialize_internal, hn]

/-- C6, counterexample: the second initialization call is NOT always free of
native work. In an environment where every attempt fails, the first
`espeak_wrapper_initialize_with_bundle` call fails and leaves the engine
uninitialized, so the second call again performs a native `espeak_Initialize`
attempt (with NULL), contradicting "the second call performs no native engine
work". -/
theorem claimC6_counterexample :
    (espeak_wrapper_initialize_with_bundle env_all_fail false).2.1 = false ∧
    (espeak_wrapper_initialize_with_bundle env_all_fail
        (espeak_wrapper_initialize_with_bundle env_all_fail false).1).2.2.filter
        EngineCall.isNative = [EngineCall.initCall none] ∧
    ([EngineCall.initCall none] : List EngineCall) ≠ [] := by
  decide

/-- C6, amended: with a fixed engine environment, both initialization
operations are idempotent in state and returned value: the second of two
sequential calls leaves the same state and returns the same success value as
the first; if the first call succeeded the second performs no native engine
work, while after a failure the second call repeats the same native attempts. -/
theorem claimC6_amended (env : Engine) (ini : Bool) (dp : Option String) :
    ((espeak_wrapper_initialize_with_bundle env
        (espeak_wrapper_initialize_with_bundle env ini).1).1 =
      (espeak_wrapper_initialize_with_bundle env ini).1 ∧
      (espeak_wrapper_initialize_with_bundle env
        (espeak_wrapper_initialize_with_bundle env ini).1).2.1 =
        (espeak_wrapper_initialize_with_bundle env ini).2.1 ∧
      (espeak_wrapper_initialize_with_bundle env
          (espeak_wrapper_initialize_with_bundle env ini).1).2.2.filter EngineCall.isNative =
        (if (espeak_wrapper_initialize_with_bundle env ini).2.1 then []
         else (espeak_wrapper_initialize_with_bundle env ini).2.2.filter
           EngineCall.isNative)) ∧
    ((espeak_wrapper_initialize_with_path env
        (espeak_wrapper_initialize_with_path env ini dp).1 dp).1 =
      (espeak_wrapper_initialize_with_path env ini dp).1 ∧
      (espeak_wrapper_initialize_with_path env
        (espeak_wrapper_initialize_with_path env ini dp).1 dp).2.1 =
        (espeak_wrapper_initialize_with_path env ini dp).2.1 ∧
      (espeak_wrapper_initialize_with_path env
          (espeak_wrapper_initialize_with_path env ini dp).1 dp).2.2.filter
          EngineCall.isNative =
        (if (espeak_wrapper_initialize_with_path env ini dp).2.1 then []
         else (espeak_wrapper_initialize_with_path env ini dp).2.2.filter
           EngineCall.isNative)) := by
  constructor
  · cases ini
    · have hfl := with_bundle_flag env false
      cases hb : (espeak_wrapper_initialize_with_bundle env false).2.1
      · rw [hb] at hfl
        simp [hfl, hb]
      · rw [hb] at hfl
        rw [hfl, with_bundle_true]
        simp [hb, EngineCall.isNative]
    · simp [with_bundle_true, EngineCall.isNative]
  · cases ini
    · have hfl := initialize_internal_flag env false dp
      simp only [Bool.false_or] at hfl
      cases hb : (initialize_internal env false dp).2.1
      · rw [hb] at hfl
        simp [espeak_wrapper_initialize_with_path, hfl, hb]
      · rw [hb] at hfl
        simp [espeak_wrapper_initialize_with_path, hfl, hb, initialize_internal_true,
          EngineCall.isNative]
    · simp [espeak_wrapper_initialize_with_path, initialize_internal_true,
        EngineCall.isNative]

/-- C7: once validation and initialization have succeeded, voice selection for
`language` is retried exactly once with the fixed fallback "en" on failure
(the sequence of names handed to `espeak_SetVoiceByName` is `[lang]` on first
success, `[lang, "en"]` otherwise); if both selections fail, the call returns
`{success:false}` without performing synthesis or phoneme conversion, and if
either succeeds the conversion proceeds (synthesis and phoneme conversion are
called). -/
theorem claimC7 (env : Engine) (st : WrapperState) (t lang : String)
    (hlen : 0 < t.length ∧ t.length ≤ 2048)
    (hinit : (ensure_init env st.is_initialized).2.1 = true) :
    voice_calls (espeak_wrapper_text_to_phonemes env st (some t) (some lang)).2.2 =
      (if env.setVoiceOk lang then [lang] else [lang, "en"]) ∧
    (env.setVoiceOk lang = false → env.setVoiceOk "en" = false →
      (espeak_wrapper_text_to_phonemes env st (some t) (some lang)).2.1 =
        EspeakResult.mk false CStrPtr.null ∧
      EngineCall.synth t ∉
        (espeak_wrapper_text_to_phonemes env st (some t) (some lang)).2.2 ∧
      EngineCall.textToPhon t ∉
        (espeak_wrapper_text_to_phonemes env st (some t) (some lang)).2.2) ∧
    ((env.setVoiceOk lang || env.setVoiceOk "en") = true →
      EngineCall.synth t ∈
        (espeak_wrapper_text_to_phonemes env st (some t) (some lang)).2.2 ∧
      EngineCall.textToPhon t ∈
        (espeak_wrapper_text_to_phonemes env st (some t) (some lang)).2.2) := by
  have hv : ¬(t.length = 0 ∨ t.length > 2048) := by omega
  have hall : (ensure_init env st.is_initialized).2.2.all is_init_call = true :=
    ensure_init_calls env st.is_initialized
  rcases he : ensure_init env st.is_initialized with ⟨ini1, initOk, trI⟩
  rw [he] at hinit hall
  simp only at hinit hall
  subst hinit
  have hvc : voice_calls trI = [] := voice_calls_of_all_init hall
  have hns : EngineCall.synth t ∉ trI := fun hc => by
    simpa [is_init_call] using mem_of_all_init hall hc
  have hnt : EngineCall.textToPhon t ∉ trI := fun hc => by
    simpa [is_init_call] using mem_of_all_init hall hc
  by_cases hvo : env.setVoiceOk lang
  · refine ⟨?_, fun h1 _ => by simp [h1] at hvo, fun _ => ?_⟩
    · simp [espeak_wrapper_text_to_phonemes, hv, he, hvo, conv_after_voice_trace,
        voice_calls_append, voice_calls, hvc]
    · constructor <;>
        simp [espeak_wrapper_text_to_phonemes, hv, he, hvo, conv_after_voice_trace]
  · by_cases hvo2 : env.setVoiceOk "en"
    · refine ⟨?_, fun _ h2 => by simp [h2] at hvo2, fun _ => ?_⟩
      · simp [espeak_wrapper_text_to_phonemes, hv, he, hvo, hvo2, conv_after_voice_trace,
          voice_calls_append, voice_calls, hvc]
      · constructor <;>
          simp [espeak_wrapper_text_to_phonemes, hv, he, hvo, hvo2, conv_after_voice_trace]
    · refine ⟨?_, fun _ _ => ⟨?_, ?_, ?_⟩, fun hor => ?_⟩
      · simp [espeak_wrapper_text_to_phonemes, hv, he, hvo, hvo2,
          voice_calls_append, voice_calls, hvc]
      · simp [espeak_wrapper_text_to_phonemes, hv, he, hvo, hvo2]
      · simp [espeak_wrapper_text_to_phonemes, hv, he, hvo, hvo2, hns]
      · simp [espeak_wrapper_text_to_phonemes, hv, he, hvo, hvo2, hnt]
      · simp [hvo, hvo2] at hor

theorem claimC7_witness :
    (0 < ("hi" : String).length ∧ ("hi" : String).length ≤ 2048) ∧
    (ensure_init env_no_voice true).2.1 = true ∧
    voice_calls (espeak_wrapper_text_to_phonemes env_no_voice ⟨true, ""⟩
      (some "hi") (some "zz")).2.2 = ["zz", "en"] ∧
    (espeak_wrapper_text_to_phonemes env_no_voice ⟨true, ""⟩ (some "hi") (some "zz")).2.1 =
      EspeakResult.mk false CStrPtr.null ∧
    EngineCall.synth "hi" ∉
      (espeak_wrapper_text_to_phonemes env_no_voice ⟨true, ""⟩ (some "hi") (some "zz")).2.2 := by
  have h := claimC7 env_no_voice ⟨true, ""⟩ "hi" "zz" (by decide) rfl
  have h2 := h.2.1 rfl rfl
  refine ⟨by decide, rfl, ?_, h2.1, h2.2.1⟩
  rw [h.1]
  decide

/-- C8: the priming synthesis pass is never fatal and never observed in the
result: replacing the engine's synthesis-status function by any other function
leaves the state, the result and the event trace of
`espeak_wrapper_text_to_phonemes` unchanged — the status is read but never used
to abort or alter the outcome. -/
theorem claimC8 (env : Engine) (sy : String → Bool) (st : WrapperState)
    (text language : Option String) :
    espeak_wrapper_text_to_phonemes { env with synthOk := sy } st text language =
      espeak_wrapper_text_to_phonemes env st text language := by
  cases env
  rfl

/-- C9: in the simulator (engine-not-linked) variant, every public operation is
a side-effect-free constant with the same name and signature as the real one:
both initialization entry points fail, conversion returns the zero-initialized
`{success:false, phonemes:NULL}` result, cleanup is a no-op, and none of them
touches the state or the engine. -/
theorem claimC9 (env : Engine) (ini : Bool) (st : WrapperState)
    (dp text language : Option String) :
    sim_espeak_wrapper_initialize_with_bundle env ini = (ini, false, []) ∧
    sim_espeak_wrapper_initialize_with_path env ini dp = (ini, false, []) ∧
    sim_espeak_wrapper_text_to_phonemes env st text language =
      (st, EspeakResult.mk false CStrPtr.null, []) ∧
    sim_espeak_wrapper_cleanup ini = (ini, []) :=
  ⟨rfl, rfl, rfl, rfl⟩

/-- C10: `espeak_wrapper_cleanup` on an initialized engine terminates the
engine and clears the `is_initialized` flag (back to the Uninitialized state,
not a dead Terminated one), so every subsequent initialization path — both
explicit entry points and the lazy initialization inside a conversion —
behaves exactly as from the fresh uninitialized state. -/
theorem claimC10 (env : Engine) (ini : Bool) (dp : Option String) (b : String)
    (text language : Option String) (h : ini = true) :
    espeak_wrapper_cleanup ini = (false, [EngineCall.lock, EngineCall.terminate]) ∧
    espeak_wrapper_initialize_with_bundle env (espeak_wrapper_cleanup ini).1 =
      espeak_wrapper_initialize_with_bundle env false ∧
    espeak_wrapper_initialize_with_path env (espeak_wrapper_cleanup ini).1 dp =
      espeak_wrapper_initialize_with_path env false dp ∧
    ensure_init env (espeak_wrapper_cleanup ini).1 = ensure_init env false ∧
    espeak_wrapper_text_to_phonemes env ⟨(espeak_wrapper_cleanup ini).1, b⟩ text language =
      espeak_wrapper_text_to_phonemes env ⟨false, b⟩ text language := by
  subst h
  exact ⟨rfl, rfl, rfl, rfl, rfl⟩

theorem claimC10_witness :
    espeak_wrapper_cleanup true = (false, [EngineCall.lock, EngineCall.terminate]) ∧
    espeak_wrapper_initialize_with_bundle env_ok (espeak_wrapper_cleanup true).1 =
      espeak_wrapper_initialize_with_bundle env_ok false ∧
    espeak_wrapper_initialize_with_path env_ok (espeak_wrapper_cleanup true).1 none =
      espeak_wrapper_initialize_with_path env_ok false none ∧
    ensure_init env_ok (espeak_wrapper_cleanup true).1 = ensure_init env_ok false ∧
    espeak_wrapper_text_to_phonemes env_ok ⟨(espeak_wrapper_cleanup true).1, ""⟩ none none =
      espeak_wrapper_text_to_phonemes env_ok ⟨false, ""⟩ none none :=
  claimC10 env_ok true none "" none none rfl
